import Mathlib

/-!
Shallow embedding of the rental billing and stock-reconciliation core of the
centering-plates rental application (pages Billing, Jama, KhataWahi/Udhar).

Dates are modelled as integer day numbers (differenceInDays on pure dates is
exact subtraction).  Money and rates are modelled as integers (integer currency units; the store columns are decimal(10,2)); quantities as
integers.  The hosted record store is modelled as an explicit `Store` value and
each page handler as a pure function from the prior store (plus fetched
snapshots and form state) to a result and the new store.
-/

namespace NPD

/-- Rental lifecycle states, as in the `rentals.status` check constraint. -/
inductive RentalStatus where
  | active
  | partiallyReturned
  | completed
  | cancelled
deriving DecidableEq, Repr

/-- Condition of a returned item, as in the `return_items.condition` check constraint. -/
inductive Condition where
  | good
  | damaged
  | lost
deriving DecidableEq, Repr

/-- A row of `rental_items` (interface `RentalItem` in `lib/supabase.ts`). -/
structure RentalItem where
  id : Nat
  rental_id : Nat
  category_id : Nat
  quantity : Int
  daily_rate : Int
  returned_quantity : Int
deriving DecidableEq, Repr

/-- A row of `rentals`, with the optional `rental_items (*)` join used by the
pages (interface `Rental` in `lib/supabase.ts`; `rental_items` is `undefined`
when the select did not join it). -/
structure Rental where
  id : Nat
  client_id : Nat
  rental_date : Int
  expected_return_date : Option Int
  actual_return_date : Option Int
  status : RentalStatus
  total_amount : Int
  notes : String
  signature_data : String
  created_by : Nat
  rental_items : Option (List RentalItem)
deriving DecidableEq, Repr

/-- A row of `stock_items` (interface `StockItem` in `lib/supabase.ts`). -/
structure StockItem where
  id : Nat
  category_id : Nat
  total_quantity : Int
  available_quantity : Int
  rented_quantity : Int
  damaged_quantity : Int
deriving DecidableEq, Repr

/-- A row of `payments` (interface `Payment` in `lib/supabase.ts`). -/
structure Payment where
  id : Nat
  client_id : Nat
  rental_id : Option Nat
  amount : Int
  payment_date : Int
deriving DecidableEq, Repr

/-- A row of `returns` (interface `ReturnRecord` in `lib/supabase.ts`). -/
structure ReturnRecord where
  id : Nat
  rental_id : Nat
  return_date : Int
  total_damage_cost : Int
  notes : String
  inspector_name : String
  created_by : Nat
deriving DecidableEq, Repr

/-- A row of `return_items` (interface `ReturnItem` in `lib/supabase.ts`). -/
structure ReturnItemRec where
  return_id : Nat
  rental_item_id : Nat
  returned_quantity : Int
  condition : Condition
  damage_cost : Int
  damage_description : String
  damage_photos : List String
deriving DecidableEq, Repr

/-- A row of `invoices` restricted to the columns the `generateInvoice` insert
writes (interface `Invoice` in `lib/supabase.ts`). -/
structure Invoice where
  id : Nat
  client_id : Nat
  rental_id : Nat
  issue_date : Int
  due_date : Int
  subtotal : Int
  tax_rate : Int
  created_by : Nat
deriving DecidableEq, Repr

/-- The record store: the tables the billing/return/issuance handlers touch. -/
structure Store where
  rentals : List Rental
  rental_items : List RentalItem
  stock_items : List StockItem
  returns : List ReturnRecord
  return_items : List ReturnItemRec
  invoices : List Invoice
deriving DecidableEq, Repr

/-- Error taxonomy of the calculator core (spec section 7).  The page handlers
surface insufficient-stock and store failures; `validationError` is listed in
the taxonomy for bad quantity input. -/
inductive AppError where
  | validationError
  | insufficientStock
  | storeError
deriving DecidableEq, Repr

/-! ## Rental Accrual Calculator (`Billing.tsx`, `calculateRentalAmount`) -/

/-- `calculateRentalAmount` from `Billing.tsx`: returns 0 when the rental has
no joined `rental_items`; otherwise the end date is `actual_return_date` when
set and `today` otherwise, `days = max(1, differenceInDays(end, start) + 1)`,
and the result is the reduce-sum of `quantity * daily_rate * days`. -/
def calculateRentalAmount (today : Int) (rental : Rental) : Int :=
  match rental.rental_items with
  | none => 0
  | some items =>
    let returnDate : Int := rental.actual_return_date.getD today
    let days : Int := max 1 (returnDate - rental.rental_date + 1)
    items.foldl (fun total item =>
      total + item.quantity * item.daily_rate * days) 0

/-- The billable day count used by `calculateRentalAmount` and `generatePDF`. -/
def billableDays (today : Int) (rental : Rental) : Int :=
  max 1 ((rental.actual_return_date.getD today) - rental.rental_date + 1)

lemma foldl_add_eq_sum {α : Type} (f : α → Int) (l : List α) (a : Int) :
    l.foldl (fun total item => total + f item) a = a + (l.map f).sum := by
  induction l generalizing a with
  | nil => simp
  | cons x xs ih => simp [List.foldl_cons, ih, add_assoc]

/-- C1.  For a rental whose `rental_items` join is present, the accrual is the
sum over items of quantity × daily_rate × days with
days = max 1 (end − start + 1), end being `actual_return_date` when set and
`today` otherwise; and when the end date equals the start date the result is
the sum of quantity × daily_rate over the items. -/
theorem calculateRentalAmount_correct (today : Int) (rental : Rental)
    (items : List RentalItem) (h : rental.rental_items = some items) :
    calculateRentalAmount today rental =
      (items.map (fun item =>
        item.quantity * item.daily_rate * billableDays today rental)).sum ∧
    (rental.actual_return_date.getD today = rental.rental_date →
      calculateRentalAmount today rental =
        (items.map (fun item => item.quantity * item.daily_rate)).sum) := by
  constructor
  · simp only [calculateRentalAmount, h, billableDays]
    rw [foldl_add_eq_sum]
    simp
  · intro hsame
    simp only [calculateRentalAmount, h, hsame]
    rw [foldl_add_eq_sum]
    simp

/-- C1 witness: a two-item rental returned the day it started is billed one
day's charge, the sum of quantity × rate. -/
theorem calculateRentalAmount_correct_witness :
    calculateRentalAmount 0
      { id := 1, client_id := 1, rental_date := 3, expected_return_date := none,
        actual_return_date := some 3, status := .active, total_amount := 0,
        notes := "", signature_data := "", created_by := 1,
        rental_items := some
          [{ id := 1, rental_id := 1, category_id := 1, quantity := 2,
             daily_rate := 25, returned_quantity := 0 },
           { id := 2, rental_id := 1, category_id := 2, quantity := 3,
             daily_rate := 15, returned_quantity := 0 }] } =
      ((2 : Int) * 25 + 3 * 15) := by
  have h := calculateRentalAmount_correct 0
    { id := 1, client_id := 1, rental_date := 3, expected_return_date := none,
      actual_return_date := some 3, status := .active, total_amount := 0,
      notes := "", signature_data := "", created_by := 1,
      rental_items := some
        [{ id := 1, rental_id := 1, category_id := 1, quantity := 2,
           daily_rate := 25, returned_quantity := 0 },
         { id := 2, rental_id := 1, category_id := 2, quantity := 3,
           daily_rate := 15, returned_quantity := 0 }] }
    [{ id := 1, rental_id := 1, category_id := 1, quantity := 2,
       daily_rate := 25, returned_quantity := 0 },
     { id := 2, rental_id := 1, category_id := 2, quantity := 3,
       daily_rate := 15, returned_quantity := 0 }] rfl
  rw [h.2 (by decide)]
  decide

/-! ## Rental issuance (`KhataWahi.tsx`, component `Udhar`, `handleSubmit`) -/

/-- One entry of the `rentalItems` form state (interface `RentalItemForm`). -/
structure RentalItemForm where
  category_id : Nat
  quantity : Int
  daily_rate : Int
deriving DecidableEq, Repr

/-- The `formData` state of the `Udhar` component. -/
structure UdharFormData where
  client_id : Nat
  rental_date : Int
  expected_return_date : Option Int
  notes : String
deriving DecidableEq, Repr

/-- `calculateTotal` from `Udhar`: the reduce-sum of `quantity * daily_rate`
over the form's rental items (no day factor). -/
def calculateTotal (rentalItems : List RentalItemForm) : Int :=
  rentalItems.foldl (fun total item => total + item.quantity * item.daily_rate) 0

/-- `getAvailableQuantity` from `Udhar`: the `available_quantity` of the first
stock item of the category in the fetched `stockItems` snapshot, 0 if none. -/
def getAvailableQuantity (stockItems : List StockItem) (categoryId : Nat) : Int :=
  match stockItems.find? (fun item => item.category_id == categoryId) with
  | some stockItem => stockItem.available_quantity
  | none => 0

/-- One iteration of the stock-update loop of `Udhar.handleSubmit`: look the
category's stock item up in the fetched `stockItems` snapshot and, when found,
overwrite the row's counters with values computed from that snapshot
(`available_quantity: stockItem.available_quantity - item.quantity`,
`rented_quantity: stockItem.rented_quantity + item.quantity`). -/
def applyStockUpdate (stockItems : List StockItem) (db : List StockItem)
    (item : RentalItemForm) : List StockItem :=
  match stockItems.find? (fun si => si.category_id == item.category_id) with
  | none => db
  | some stockItem =>
    db.map (fun row =>
      if row.id == stockItem.id then
        { row with
          available_quantity := stockItem.available_quantity - item.quantity,
          rented_quantity := stockItem.rented_quantity + item.quantity }
      else row)

/-- `handleSubmit` of the `Udhar` component: returns early when there is no
user or no items; validates every item's quantity against
`getAvailableQuantity` on the fetched snapshot (first violation aborts with the
insufficient-stock error and no write); otherwise inserts the rental (with
`total_amount := calculateTotal`, status defaulting to `active`), inserts one
`rental_items` row per form item (`returned_quantity` defaulting to 0), then
runs the stock-update loop, each iteration computed from the same snapshot. -/
def udharHandleSubmit (user : Option Nat) (stockItems : List StockItem)
    (formData : UdharFormData) (rentalItems : List RentalItemForm)
    (signatureData : String) (db : Store) : Option AppError × Store :=
  match user with
  | none => (none, db)
  | some u =>
    if rentalItems.isEmpty then (none, db)
    else
      match rentalItems.find? (fun item =>
          decide (getAvailableQuantity stockItems item.category_id < item.quantity)) with
      | some _ => (some .insufficientStock, db)
      | none =>
        let rental : Rental :=
          { id := db.rentals.length, client_id := formData.client_id,
            rental_date := formData.rental_date,
            expected_return_date := formData.expected_return_date,
            actual_return_date := none, status := .active,
            total_amount := calculateTotal rentalItems, notes := formData.notes,
            signature_data := signatureData, created_by := u,
            rental_items := none }
        let db1 := { db with rentals := db.rentals ++ [rental] }
        let rentalItemsData := rentalItems.enum.map (fun p =>
          ({ id := db.rental_items.length + p.1, rental_id := rental.id,
             category_id := p.2.category_id, quantity := p.2.quantity,
             daily_rate := p.2.daily_rate, returned_quantity := 0 } : RentalItem))
        let db2 := { db1 with rental_items := db1.rental_items ++ rentalItemsData }
        let db3 := { db2 with
          stock_items := rentalItems.foldl (applyStockUpdate stockItems) db2.stock_items }
        (none, db3)

lemma find?_map_of_pred_comm (f : StockItem → StockItem) (p : StockItem → Bool)
    (hpf : ∀ x, p (f x) = p x) (l : List StockItem) :
    (l.map f).find? p = (l.find? p).map f := by
  induction l with
  | nil => simp
  | cons x xs ih =>
    by_cases hx : p x
    · simp [List.find?_cons_of_pos, hx, hpf]
    · simp [List.find?_cons_of_neg, hx, hpf, ih]

/-- C6.  A single-item issuance request of `qty` units of a category whose
stock row is `si`: when `qty` exceeds `si.available_quantity` the handler fails
with the insufficient-stock error and leaves the store unchanged; otherwise it
succeeds and the category's stock row afterwards has `available_quantity`
decreased by `qty` and `rented_quantity` increased by `qty`. -/
theorem udhar_issue_correct (u : Nat) (formData : UdharFormData)
    (sig : String) (db : Store) (item : RentalItemForm) (si : StockItem)
    (hfind : db.stock_items.find? (fun s => s.category_id == item.category_id) = some si) :
    (si.available_quantity < item.quantity →
      udharHandleSubmit (some u) db.stock_items formData [item] sig db =
        (some .insufficientStock, db)) ∧
    (item.quantity ≤ si.available_quantity →
      (udharHandleSubmit (some u) db.stock_items formData [item] sig db).1 = none ∧
      ((udharHandleSubmit (some u) db.stock_items formData [item] sig db).2.stock_items.find?
          (fun s => s.category_id == item.category_id)) =
        some { si with
          available_quantity := si.available_quantity - item.quantity,
          rented_quantity := si.rented_quantity + item.quantity }) := by
  have havail : getAvailableQuantity db.stock_items item.category_id =
      si.available_quantity := by
    simp [getAvailableQuantity, hfind]
  constructor
  · intro hlt
    simp [udharHandleSubmit, List.find?, havail, hlt]
  · intro hle
    have hnot : ¬ (getAvailableQuantity db.stock_items item.category_id < item.quantity) := by
      rw [havail]; exact not_lt.mpr hle
    have hval : [item].find? (fun it =>
        decide (getAvailableQuantity db.stock_items it.category_id < it.quantity)) = none := by
      simp [List.find?, hnot]
    constructor
    · simp [udharHandleSubmit, hval]
    · have hstock : (udharHandleSubmit (some u) db.stock_items formData [item] sig db).2.stock_items
          = db.stock_items.map (fun row =>
              if row.id == si.id then
                { row with
                  available_quantity := si.available_quantity - item.quantity,
                  rented_quantity := si.rented_quantity + item.quantity }
              else row) := by
        simp [udharHandleSubmit, hval, applyStockUpdate, hfind]
      rw [hstock,
        find?_map_of_pred_comm _ _ (fun x => by by_cases hx : x.id == si.id <;> simp [hx]),
        hfind]
      simp

/-- A stock row with 6 units available and 4 rented (spec Scenario D). -/
def sampleStockRow : StockItem :=
  { id := 1, category_id := 1, total_quantity := 10,
    available_quantity := 6, rented_quantity := 4, damaged_quantity := 0 }

/-- A store holding only `sampleStockRow`. -/
def sampleStockStore : Store :=
  { rentals := [], rental_items := [], stock_items := [sampleStockRow],
    returns := [], return_items := [], invoices := [] }

/-- A plain issuance form for client 1 on day 0. -/
def sampleUdharForm : UdharFormData :=
  { client_id := 1, rental_date := 0, expected_return_date := none, notes := "" }

/-- C6 witness (spec Scenario D): requesting 10 units with 6 available is
rejected with the insufficient-stock error and the store is unchanged. -/
theorem udhar_issue_correct_witness :
    udharHandleSubmit (some 1) sampleStockStore.stock_items sampleUdharForm
      [{ category_id := 1, quantity := 10, daily_rate := 25 }] "" sampleStockStore =
      (some .insufficientStock, sampleStockStore) :=
  (udhar_issue_correct 1 sampleUdharForm "" sampleStockStore
    { category_id := 1, quantity := 10, daily_rate := 25 }
    sampleStockRow (by decide)).1 (by decide)

/-- The rental row created by the C10 issuance below. -/
def c10Rental : Rental :=
  { id := 0, client_id := 1, rental_date := 0, expected_return_date := none,
    actual_return_date := none, status := .active, total_amount := 200,
    notes := "", signature_data := "", created_by := 1, rental_items := none }

/-- The store the C10 issuance below actually persists: the stock row shows
only the second item's delta (available 6 − 4 = 2, rented 4 + 4 = 8) instead
of the combined decrement. -/
def c10FinalStore : Store :=
  { rentals := [c10Rental],
    rental_items :=
      [{ id := 0, rental_id := 0, category_id := 1, quantity := 4,
         daily_rate := 25, returned_quantity := 0 },
       { id := 1, rental_id := 0, category_id := 1, quantity := 4,
         daily_rate := 25, returned_quantity := 0 }],
    stock_items :=
      [{ id := 1, category_id := 1, total_quantity := 10,
         available_quantity := 2, rented_quantity := 8, damaged_quantity := 0 }],
    returns := [], return_items := [], invoices := [] }

/-- C10.  An issuance whose two line items reference the same category is
validated item-by-item against the same pre-fetched snapshot and each stock
update is computed from that snapshot: with 6 available and two items of 4
units each, the submission succeeds although 4 + 4 > 6, and the persisted
stock row reflects only one item's decrement rather than the sum of both. -/
theorem udhar_same_category_lost_update :
    (4 : Int) + 4 > sampleStockRow.available_quantity ∧
    udharHandleSubmit (some 1) sampleStockStore.stock_items sampleUdharForm
      [{ category_id := 1, quantity := 4, daily_rate := 25 },
       { category_id := 1, quantity := 4, daily_rate := 25 }] "" sampleStockStore =
      (none, c10FinalStore) := by
  decide

/-! ## Return Reconciler (`Jama.tsx`, `handleSubmit`) -/

/-- The `returnFormData` state of the `Jama` page (interface `ReturnFormData`). -/
structure ReturnFormData where
  rental_id : Nat
  return_date : Int
  notes : String
  inspector_name : String
deriving DecidableEq, Repr

/-- One entry of the `returnItems` form state (interface `ReturnItemFormData`). -/
structure ReturnItemFormData where
  rental_item_id : Nat
  returned_quantity : Int
  condition : Condition
  damage_cost : Int
  damage_description : String
  damage_photos : List String
deriving DecidableEq, Repr

/-- `calculateTotalDamageCost` from `Jama`: the reduce-sum of `damage_cost`
over every entry of the return form (zero-quantity entries included). -/
def calculateTotalDamageCost (returnItems : List ReturnItemFormData) : Int :=
  returnItems.foldl (fun total item => total + item.damage_cost) 0

/-- Which persistence step of `Jama.handleSubmit` fails (a `StoreError` from
the record store); `none` means every step succeeds. -/
inductive JamaFailStep where
  | returnsInsert
  | itemsInsert
deriving DecidableEq, Repr

/-- `handleSubmit` of the `Jama` page, with an explicit failure-injection
parameter for the awaited inserts.  The sequence mirrors the source: return
early when there is no user or selected rental; insert the `returns` header
(with `total_damage_cost := calculateTotalDamageCost`); insert one
`return_items` row per form entry with positive `returned_quantity`; recompute
the rental status (`completed` when every rental item of the selected rental
has a form entry with `returned_quantity + returned_quantity ≥ quantity`, else
`partially_returned`) and update the rental row, setting `actual_return_date`
to the return date on completion and to null otherwise.  A failing insert
throws into the catch block, leaving every earlier write in place.  No
validation against pending quantities, no `rental_items` update and no
`stock_items` update occurs anywhere in the function. -/
def jamaHandleSubmit (fail : Option JamaFailStep) (user : Option Nat)
    (selectedRental : Option Rental) (returnFormData : ReturnFormData)
    (returnItems : List ReturnItemFormData) (db : Store) :
    Option AppError × Store :=
  match user, selectedRental with
  | some u, some rental =>
    if fail = some .returnsInsert then (some .storeError, db)
    else
      let returnRecord : ReturnRecord :=
        { id := db.returns.length, rental_id := returnFormData.rental_id,
          return_date := returnFormData.return_date,
          total_damage_cost := calculateTotalDamageCost returnItems,
          notes := returnFormData.notes,
          inspector_name := returnFormData.inspector_name, created_by := u }
      let db1 := { db with returns := db.returns ++ [returnRecord] }
      if fail = some .itemsInsert then (some .storeError, db1)
      else
        let returnItemsData := (returnItems.filter
            (fun item => decide (item.returned_quantity > 0))).map (fun item =>
          ({ return_id := returnRecord.id, rental_item_id := item.rental_item_id,
             returned_quantity := item.returned_quantity,
             condition := item.condition, damage_cost := item.damage_cost,
             damage_description := item.damage_description,
             damage_photos := item.damage_photos } : ReturnItemRec))
        let db2 := { db1 with return_items := db1.return_items ++ returnItemsData }
        let allItemsReturned : Bool :=
          match rental.rental_items with
          | none => false
          | some items => items.all (fun rentalItem =>
              match returnItems.find? (fun ri => ri.rental_item_id == rentalItem.id) with
              | some returnItem =>
                decide (rentalItem.returned_quantity + returnItem.returned_quantity ≥
                  rentalItem.quantity)
              | none => false)
        let newStatus : RentalStatus :=
          if allItemsReturned then .completed else .partiallyReturned
        let db3 := { db2 with rentals := db2.rentals.map (fun r =>
            if r.id == rental.id then
              { r with status := newStatus,
                       actual_return_date :=
                         if allItemsReturned then some returnFormData.return_date
                         else none }
            else r) }
        (none, db3)
  | _, _ => (none, db)

/-- The rental item used by the return-processing examples: 5 issued, 2
already returned, so 3 pending. -/
def jamaRentalItem : RentalItem :=
  { id := 11, rental_id := 7, category_id := 1, quantity := 5,
    daily_rate := 25, returned_quantity := 2 }

/-- The selected rental of the return-processing examples, with its
`rental_items` join. -/
def jamaRental : Rental :=
  { id := 7, client_id := 1, rental_date := 0, expected_return_date := none,
    actual_return_date := none, status := .partiallyReturned,
    total_amount := 125, notes := "", signature_data := "", created_by := 1,
    rental_items := some [jamaRentalItem] }

/-- The store prior to the return-processing examples. -/
def jamaStore : Store :=
  { rentals := [jamaRental],
    rental_items := [jamaRentalItem],
    stock_items :=
      [{ id := 1, category_id := 1, total_quantity := 10,
         available_quantity := 3, rented_quantity := 7, damaged_quantity := 0 }],
    returns := [], return_items := [], invoices := [] }

/-- The return form of the return-processing examples (return date day 6). -/
def jamaForm : ReturnFormData :=
  { rental_id := 7, return_date := 6, notes := "", inspector_name := "" }

/-- C2 (code bug).  Submitting a return of 4 units against a rental item with
only 3 pending (5 issued, 2 returned) is not rejected: `handleSubmit` performs
no quantity validation, reports success (no `ValidationError`), and persists
the over-quantity return item, mutating the store. -/
theorem jama_no_overreturn_validation :
    (4 : Int) > jamaRentalItem.quantity - jamaRentalItem.returned_quantity ∧
    (jamaHandleSubmit none (some 1) (some jamaRental) jamaForm
      [{ rental_item_id := 11, returned_quantity := 4, condition := .good,
         damage_cost := 0, damage_description := "", damage_photos := [] }]
      jamaStore).1 = none ∧
    (jamaHandleSubmit none (some 1) (some jamaRental) jamaForm
      [{ rental_item_id := 11, returned_quantity := 4, condition := .good,
         damage_cost := 0, damage_description := "", damage_photos := [] }]
      jamaStore).2.return_items =
      [{ return_id := 0, rental_item_id := 11, returned_quantity := 4,
         condition := .good, damage_cost := 0, damage_description := "",
         damage_photos := [] }] := by
  decide

/-- A valid partial-return submission: 2 of the 3 pending units, good
condition (spec Scenario B's quantity). -/
def jamaGoodSubmission : ReturnItemFormData :=
  { rental_item_id := 11, returned_quantity := 2, condition := .good,
    damage_cost := 0, damage_description := "", damage_photos := [] }

/-- C3 (code bug).  After a valid return of 2 units is processed successfully,
the stored `rental_items` rows are unchanged: `handleSubmit` never adds the
submitted quantity to `returned_quantity`. -/
theorem jama_returned_quantity_not_updated :
    (jamaHandleSubmit none (some 1) (some jamaRental) jamaForm
      [jamaGoodSubmission] jamaStore).1 = none ∧
    (jamaHandleSubmit none (some 1) (some jamaRental) jamaForm
      [jamaGoodSubmission] jamaStore).2.rental_items = jamaStore.rental_items := by
  decide

/-- C4 (code bug).  After a valid return of 2 damaged units (damage cost 500)
is processed successfully, the stock rows are unchanged: `handleSubmit` never
moves the returned quantity out of `rented_quantity` nor into
`available_quantity` or `damaged_quantity`. -/
theorem jama_stock_not_updated :
    (jamaHandleSubmit none (some 1) (some jamaRental) jamaForm
      [{ rental_item_id := 11, returned_quantity := 2, condition := .damaged,
         damage_cost := 500, damage_description := "", damage_photos := [] }]
      jamaStore).1 = none ∧
    (jamaHandleSubmit none (some 1) (some jamaRental) jamaForm
      [{ rental_item_id := 11, returned_quantity := 2, condition := .damaged,
         damage_cost := 500, damage_description := "", damage_photos := [] }]
      jamaStore).2.stock_items = jamaStore.stock_items := by
  decide

/-- C5 (code bug).  When the `return_items` insert fails after the `returns`
header insert succeeded, the invocation reports a failure but the header row
it created stays visible: the steps are not one transaction. -/
theorem jama_partial_state_on_failure :
    (jamaHandleSubmit (some .itemsInsert) (some 1) (some jamaRental) jamaForm
      [jamaGoodSubmission] jamaStore).1 = some .storeError ∧
    jamaStore.returns = [] ∧
    (jamaHandleSubmit (some .itemsInsert) (some 1) (some jamaRental) jamaForm
      [jamaGoodSubmission] jamaStore).2.returns =
      [{ id := 0, rental_id := 7, return_date := 6, total_damage_cost := 0,
         notes := "", inspector_name := "", created_by := 1 }] := by
  decide

/-! ## Quantity Ledger (spec section 4.3)

The issue-side mutation is the stock-update row write of `Udhar.handleSubmit`.
The return-side mutations have no implementation: `Jama.handleSubmit` never
writes `stock_items` (theorem `jama_stock_not_updated`), so they are modelled
from the spec. -/

/-- The effect of one `Udhar.handleSubmit` stock-update write on the matched
stock row, in the single-writer case where the fetched snapshot row equals the
stored row: `available_quantity - quantity`, `rented_quantity + quantity`. -/
def issueStock (qty : Int) (s : StockItem) : StockItem :=
  { s with available_quantity := s.available_quantity - qty,
           rented_quantity := s.rented_quantity + qty }

/-- Modelled from the spec: `returnGood(category, qty)` of the Quantity Ledger
(section 4.3) — `rented -= qty, available += qty`.  Missing from the source:
return processing in `Jama.tsx` performs no stock write. -/
def returnGoodStock (qty : Int) (s : StockItem) : StockItem :=
  { s with rented_quantity := s.rented_quantity - qty,
           available_quantity := s.available_quantity + qty }

/-- Modelled from the spec: `returnDamaged(category, qty)` of the Quantity
Ledger (section 4.3) — `rented -= qty, damaged += qty`.  Missing from the
source: return processing in `Jama.tsx` performs no stock write. -/
def returnDamagedStock (qty : Int) (s : StockItem) : StockItem :=
  { s with rented_quantity := s.rented_quantity - qty,
           damaged_quantity := s.damaged_quantity + qty }

/-- One Quantity Ledger operation on a stock item. -/
inductive LedgerOp where
  | issue (qty : Int)
  | returnGood (qty : Int)
  | returnDamaged (qty : Int)
deriving DecidableEq, Repr

/-- Apply one ledger operation. -/
def applyLedgerOp (s : StockItem) : LedgerOp → StockItem
  | .issue qty => issueStock qty s
  | .returnGood qty => returnGoodStock qty s
  | .returnDamaged qty => returnDamagedStock qty s

/-- Apply a sequence of ledger operations, first element first. -/
def applyLedgerOps (ops : List LedgerOp) (s : StockItem) : StockItem :=
  ops.foldl applyLedgerOp s

/-- The at-rest stock invariant of spec section 4.3. -/
def stockInvariant (s : StockItem) : Prop :=
  s.available_quantity + s.rented_quantity + s.damaged_quantity = s.total_quantity

instance (s : StockItem) : Decidable (stockInvariant s) := by
  unfold stockInvariant; infer_instance

/-- C7.  Every finite sequence of issue / return-good / return-damaged
operations preserves `available + rented + damaged = total` on a stock item
that satisfies it initially. -/
theorem ledger_invariant_preserved (ops : List LedgerOp) (s : StockItem)
    (h : stockInvariant s) : stockInvariant (applyLedgerOps ops s) := by
  induction ops generalizing s with
  | nil => exact h
  | cons op rest ih =>
    apply ih
    cases op with
    | issue qty =>
      simp only [stockInvariant, applyLedgerOp, issueStock] at h ⊢
      omega
    | returnGood qty =>
      simp only [stockInvariant, applyLedgerOp, returnGoodStock] at h ⊢
      omega
    | returnDamaged qty =>
      simp only [stockInvariant, applyLedgerOp, returnDamagedStock] at h ⊢
      omega

/-- C7 witness: issuing 4, returning 3 good and 1 damaged preserves the
invariant on the Scenario-D stock row. -/
theorem ledger_invariant_preserved_witness :
    stockInvariant sampleStockRow ∧
    stockInvariant (applyLedgerOps
      [.issue 4, .returnGood 3, .returnDamaged 1] sampleStockRow) :=
  ⟨by decide,
   ledger_invariant_preserved [.issue 4, .returnGood 3, .returnDamaged 1]
     sampleStockRow (by decide)⟩

/-! ## Ledger Aggregator (`KhataWahi.tsx`, `fetchClientLedgers`) -/

/-- The `in('status', ['active', 'partially_returned'])` filter of the
per-client rentals query. -/
def isOpenStatus (s : RentalStatus) : Bool :=
  s == .active || s == .partiallyReturned

/-- The per-client rentals fetch of `fetchClientLedgers`:
`eq('client_id', client.id)` and the open-status filter. -/
def fetchClientActiveRentals (clientId : Nat) (rentals : List Rental) : List Rental :=
  rentals.filter (fun r => r.client_id == clientId && isOpenStatus r.status)

/-- Insert a payment into a list already sorted by `payment_date` descending. -/
def insertPaymentDesc (p : Payment) : List Payment → List Payment
  | [] => [p]
  | q :: qs =>
    if p.payment_date ≤ q.payment_date then q :: insertPaymentDesc p qs
    else p :: q :: qs

/-- Sort payments by `payment_date` descending (the query's
`order('payment_date', { ascending: false })`). -/
def sortPaymentsDesc (l : List Payment) : List Payment :=
  l.foldr insertPaymentDesc []

/-- The per-client payments fetch of `fetchClientLedgers`:
`eq('client_id', client.id)`, ordered by `payment_date` descending,
`limit(10)`. -/
def fetchClientPayments (clientId : Nat) (payments : List Payment) : List Payment :=
  (sortPaymentsDesc (payments.filter (fun p => p.client_id == clientId))).take 10

/-- One entry of the `clientLedgers` state (interface `ClientLedger`). -/
structure ClientLedger where
  activeRentals : List Rental
  totalOutstanding : Int
  totalPaid : Int
  currentBalance : Int
  recentPayments : List Payment
deriving DecidableEq, Repr

/-- The ledger `fetchClientLedgers` builds for one client: the reduce-sum of
`total_amount` over the fetched open rentals, the reduce-sum of `amount` over
the fetched (limit-10) payments, and their difference. -/
def computeClientLedger (clientId : Nat) (rentals : List Rental)
    (payments : List Payment) : ClientLedger :=
  let activeRentals := fetchClientActiveRentals clientId rentals
  let recent := fetchClientPayments clientId payments
  let totalOutstanding := activeRentals.foldl (fun sum rental => sum + rental.total_amount) 0
  let totalPaid := recent.foldl (fun sum payment => sum + payment.amount) 0
  { activeRentals := activeRentals, totalOutstanding := totalOutstanding,
    totalPaid := totalPaid, currentBalance := totalOutstanding - totalPaid,
    recentPayments := recent }

lemma length_insertPaymentDesc (p : Payment) (l : List Payment) :
    (insertPaymentDesc p l).length = l.length + 1 := by
  induction l with
  | nil => rfl
  | cons q qs ih =>
    simp only [insertPaymentDesc]
    split <;> simp [ih]

lemma length_sortPaymentsDesc (l : List Payment) :
    (sortPaymentsDesc l).length = l.length := by
  induction l with
  | nil => rfl
  | cons p ps ih =>
    simp only [sortPaymentsDesc, List.foldr_cons] at ih ⊢
    rw [length_insertPaymentDesc, ih, List.length_cons]

lemma sum_map_insertPaymentDesc (f : Payment → Int) (p : Payment) (l : List Payment) :
    ((insertPaymentDesc p l).map f).sum = f p + (l.map f).sum := by
  induction l with
  | nil => simp [insertPaymentDesc]
  | cons q qs ih =>
    simp only [insertPaymentDesc]
    split
    · simp only [List.map_cons, List.sum_cons, ih]
      ring
    · simp

lemma sum_map_sortPaymentsDesc (f : Payment → Int) (l : List Payment) :
    ((sortPaymentsDesc l).map f).sum = (l.map f).sum := by
  induction l with
  | nil => rfl
  | cons p ps ih =>
    simp only [sortPaymentsDesc, List.foldr_cons] at ih ⊢
    rw [sum_map_insertPaymentDesc, ih, List.map_cons, List.sum_cons]

/-- Eleven one-rupee payments of client 1, dated day 0 through day 10. -/
def elevenPayments : List Payment :=
  (List.range 11).map (fun i =>
    { id := i, client_id := 1, rental_id := none, amount := 1,
      payment_date := (i : Int) })

/-- C8 counterexample.  With eleven payments on record for the client, the
computed `totalPaid` is the sum over the ten most recent payments only (10),
not the sum over all of the client's payments (11). -/
theorem ledger_totalPaid_misses_old_payments :
    (computeClientLedger 1 [] elevenPayments).totalPaid ≠
      ((elevenPayments.filter (fun p => p.client_id == 1)).map
        (fun p => p.amount)).sum ∧
    (computeClientLedger 1 [] elevenPayments).totalPaid = 10 ∧
    ((elevenPayments.filter (fun p => p.client_id == 1)).map
      (fun p => p.amount)).sum = 11 := by
  decide

/-- C8 as amended.  `totalOutstanding` is the sum of `total_amount` over the
client's rentals with status active or partially returned, `totalPaid` is the
sum of `amount` over the client's at most ten most recent payments (by
`payment_date` descending, limit 10) — equal to the sum over all of the
client's payments whenever the client has at most ten — and `currentBalance`
is their difference. -/
theorem ledger_aggregation_correct (clientId : Nat) (rentals : List Rental)
    (payments : List Payment) :
    (computeClientLedger clientId rentals payments).totalOutstanding =
      ((rentals.filter (fun r => r.client_id == clientId && isOpenStatus r.status)).map
        (fun r => r.total_amount)).sum ∧
    (computeClientLedger clientId rentals payments).totalPaid =
      ((fetchClientPayments clientId payments).map (fun p => p.amount)).sum ∧
    (computeClientLedger clientId rentals payments).currentBalance =
      (computeClientLedger clientId rentals payments).totalOutstanding -
        (computeClientLedger clientId rentals payments).totalPaid ∧
    ((payments.filter (fun p => p.client_id == clientId)).length ≤ 10 →
      (computeClientLedger clientId rentals payments).totalPaid =
        ((payments.filter (fun p => p.client_id == clientId)).map
          (fun p => p.amount)).sum) := by
  refine ⟨?_, ?_, rfl, ?_⟩
  · simp only [computeClientLedger, fetchClientActiveRentals]
    rw [foldl_add_eq_sum]
    simp
  · simp only [computeClientLedger]
    rw [foldl_add_eq_sum]
    simp
  · intro hlen
    simp only [computeClientLedger, fetchClientPayments]
    rw [foldl_add_eq_sum, zero_add,
      List.take_of_length_le (by rw [length_sortPaymentsDesc]; exact hlen),
      sum_map_sortPaymentsDesc]

/-- Three one-rupee payments of client 1, dated day 0 through day 2. -/
def threePayments : List Payment :=
  (List.range 3).map (fun i =>
    { id := i, client_id := 1, rental_id := none, amount := 1,
      payment_date := (i : Int) })

/-- C8 witness: with only three payments on record, `totalPaid` equals the sum
over all of the client's payments. -/
theorem ledger_aggregation_correct_witness :
    (computeClientLedger 1 [] threePayments).totalPaid =
      ((threePayments.filter (fun p => p.client_id == 1)).map
        (fun p => p.amount)).sum :=
  (ledger_aggregation_correct 1 [] threePayments).2.2.2 (by decide)

/-! ## Invoice generation (`Billing.tsx`, `generateInvoice`) -/

/-- The `invoiceFormData` state of the Billing page (the fields the insert
uses). -/
structure InvoiceFormData where
  client_id : Nat
  rental_id : Nat
  issue_date : Int
  due_date : Int
  tax_rate : Int
deriving DecidableEq, Repr

/-- `generateInvoice` from `Billing.tsx`: returns early without a user or
selected rental; otherwise computes `subtotal := calculateRentalAmount` of the
selected rental at the evaluation date and inserts one `invoices` row.  It
writes no other table; in particular it never touches the rental's
`total_amount`. -/
def generateInvoice (today : Int) (user : Option Nat) (selectedRental : Option Rental)
    (invoiceFormData : InvoiceFormData) (db : Store) : Store :=
  match user, selectedRental with
  | some u, some rental =>
    let subtotal := calculateRentalAmount today rental
    { db with invoices := db.invoices ++
        [{ id := db.invoices.length, client_id := invoiceFormData.client_id,
           rental_id := invoiceFormData.rental_id,
           issue_date := invoiceFormData.issue_date,
           due_date := invoiceFormData.due_date, subtotal := subtotal,
           tax_rate := invoiceFormData.tax_rate, created_by := u }] }
  | _, _ => db

/-- The store after issuing 2 units at rate 25 on day 0 against
`sampleStockStore`. -/
def c9CreatedStore : Store :=
  (udharHandleSubmit (some 1) sampleStockStore.stock_items sampleUdharForm
    [{ category_id := 1, quantity := 2, daily_rate := 25 }] "" sampleStockStore).2

/-- The rental row that issuance persists: `total_amount` is the one-day
charge 2 × 25 = 50, frozen at creation. -/
def c9Rental : Rental :=
  { id := 0, client_id := 1, rental_date := 0, expected_return_date := none,
    actual_return_date := none, status := .active, total_amount := 50,
    notes := "", signature_data := "", created_by := 1, rental_items := none }

/-- The same rental as the Billing page fetches it, with the `rental_items`
join present. -/
def c9JoinedRental : Rental :=
  { c9Rental with rental_items := some c9CreatedStore.rental_items }

/-- The invoice form used on day 4. -/
def c9InvoiceForm : InvoiceFormData :=
  { client_id := 1, rental_id := 0, issue_date := 4, due_date := 34,
    tax_rate := 18 }

/-- C9 counterexample.  The stored `total_amount` is written at rental
creation (2 × 25 = 50, a one-day charge), not at invoice generation: invoicing
on day 4 computes a live accrual of 250 — so the stored value does not equal
the accrual computed at invoicing time — stores it only on the invoice's
`subtotal`, and leaves the rentals table unchanged. -/
theorem total_amount_not_invoice_time_snapshot :
    c9CreatedStore.rentals = [c9Rental] ∧
    calculateRentalAmount 4 c9JoinedRental = 250 ∧
    c9Rental.total_amount ≠ calculateRentalAmount 4 c9JoinedRental ∧
    (generateInvoice 4 (some 1) (some c9JoinedRental) c9InvoiceForm
      c9CreatedStore).rentals = c9CreatedStore.rentals ∧
    ((generateInvoice 4 (some 1) (some c9JoinedRental) c9InvoiceForm
      c9CreatedStore).invoices.map (fun i => i.subtotal)) = [250] := by
  decide

/-- C9 as amended.  A rental's stored `total_amount` is a snapshot taken at
rental creation, equal to `calculateTotal` (the one-day sum of
quantity × daily_rate); it is never recomputed afterwards: invoice generation
snapshots the live `calculateRentalAmount` value into the invoice's
`subtotal`, appending one invoice row and leaving the rentals table — hence
the stored `total_amount` — unchanged. -/
theorem total_amount_snapshot_at_creation (u : Nat) (stockItems : List StockItem)
    (formData : UdharFormData) (items : List RentalItemForm) (sig : String)
    (db : Store) (today : Int) (sel : Rental) (form : InvoiceFormData)
    (db2 : Store) (hne : items ≠ [])
    (hval : items.find? (fun item =>
      decide (getAvailableQuantity stockItems item.category_id < item.quantity)) = none) :
    ((udharHandleSubmit (some u) stockItems formData items sig db).2.rentals.map
        (fun r => r.total_amount)) =
      db.rentals.map (fun r => r.total_amount) ++ [calculateTotal items] ∧
    (generateInvoice today (some u) (some sel) form db2).rentals = db2.rentals ∧
    ((generateInvoice today (some u) (some sel) form db2).invoices.map
        (fun i => i.subtotal)) =
      db2.invoices.map (fun i => i.subtotal) ++ [calculateRentalAmount today sel] := by
  refine ⟨?_, rfl, by simp [generateInvoice]⟩
  have hempty : items.isEmpty = false := by
    cases items with
    | nil => exact absurd rfl hne
    | cons x xs => rfl
  simp [udharHandleSubmit, hempty, hval]

/-- C9 witness: issuing 2 units at rate 25 stores `total_amount` 50, and
invoicing the joined rental on day 4 appends an invoice with subtotal 250
while the rentals table stays as it was. -/
theorem total_amount_snapshot_at_creation_witness :
    ((udharHandleSubmit (some 1) sampleStockStore.stock_items sampleUdharForm
        [{ category_id := 1, quantity := 2, daily_rate := 25 }] ""
        sampleStockStore).2.rentals.map (fun r => r.total_amount)) =
      sampleStockStore.rentals.map (fun r => r.total_amount) ++
        [calculateTotal [{ category_id := 1, quantity := 2, daily_rate := 25 }]] ∧
    (generateInvoice 4 (some 1) (some c9JoinedRental) c9InvoiceForm
      c9CreatedStore).rentals = c9CreatedStore.rentals ∧
    ((generateInvoice 4 (some 1) (some c9JoinedRental) c9InvoiceForm
        c9CreatedStore).invoices.map (fun i => i.subtotal)) =
      c9CreatedStore.invoices.map (fun i => i.subtotal) ++
        [calculateRentalAmount 4 c9JoinedRental] :=
  total_amount_snapshot_at_creation 1 sampleStockStore.stock_items sampleUdharForm
    [{ category_id := 1, quantity := 2, daily_rate := 25 }] "" sampleStockStore
    4 c9JoinedRental c9InvoiceForm c9CreatedStore (by decide) (by decide)

end NPD
